import Mathlib

/-!
Verification development for the mistodon social client.

The definitions below are a shallow embedding of the TypeScript sources:
the post-interaction hook (likePost, unlikePost, repost, unrepost,
replyToPost, isReposted, getLikeCount, getRepostCount), the post-detail
loader (loadPostFromSoul, its found guard and its 8-second timeout), the
bidirectional user-posts subscription (its postsMap deduplication), and
the PostCard repost-badge derivation (isRepostedPost).

The underlying graph store offers overwrite-at-path writes; we model the
regions the code touches as association lists keyed by (postId, userPub)
or (userPub, postId) pairs, with a put that overwrites the entry at a key.
Values put by the code are booleans, null tombstones, timestamp records,
or post-reference records; GVal enumerates them.  Gun metadata (the
underscore field of raw nodes) is not stored, so a value read back is
exactly the value put.  Profile enrichment and tag loading are not
modelled: no claim touches them.
-/

set_option autoImplicit false

namespace Mistodon

/-- Values that the interaction code writes into (and reads from) the
graph store: a null tombstone, a boolean, a record carrying only a
timestamp, or a post-reference record carrying id, timestamp and a
reposted flag. -/
inductive GVal where
  | gnull
  | gbool (b : Bool)
  | gts (timestamp : Nat)
  | gpostRef (id : String) (timestamp : Nat) (reposted : Bool)
  deriving DecidableEq, Repr

/-- JavaScript truthiness of a stored value: null and false are falsy,
true and object records are truthy. -/
def truthy : GVal → Bool
  | .gnull => false
  | .gbool b => b
  | .gts _ => true
  | .gpostRef _ _ _ => true

/-- Overwrite-at-path write: the graph store keeps at most one value per
key, and a put replaces whatever was there. -/
def putKV {α β : Type} [DecidableEq α] (l : List (α × β)) (k : α) (v : β) :
    List (α × β) :=
  (k, v) :: l.filter (fun p => decide (p.1 ≠ k))

/-- Read the value stored at a key, if any. -/
def getKV {α β : Type} [DecidableEq α] : List (α × β) → α → Option β
  | [], _ => none
  | (k1, v) :: rest, k => if k1 = k then some v else getKV rest k

/-- Whether the entry stored at a key is present and truthy (a
tombstoned or absent entry is not). -/
def truthyAt {α : Type} [DecidableEq α] (l : List (α × GVal)) (k : α) : Bool :=
  match getKV l k with
  | some v => truthy v
  | none => false

/-- Raw post payload as the repost lookup dereferences it; only the
timestamp field is consumed by the code under verification. -/
structure RawPost where
  timestamp : Option Nat
  deriving DecidableEq, Repr

/-- The regions of the graph store that the interaction code reads and
writes.  appLikes and appReposts live under the app node
(shogun-mistodon-clone-v1/posts/postId/likes-or-reposts/userPub), intLikes
and intReposts under the global interactions node, userSpacePosts under
the authenticated user-space posts node (keyed userPub then postId),
usersPosts under the public users node (keyed userPub then postId),
hashIndex is the content-addressed table mapping postId to a soul, souls
maps a soul to the payload stored there, and appPostData is the fallback
app posts node read by the repost lookup. -/
structure Store where
  appLikes : List ((String × String) × GVal)
  intLikes : List ((String × String) × GVal)
  appReposts : List ((String × String) × GVal)
  intReposts : List ((String × String) × GVal)
  userSpacePosts : List ((String × String) × GVal)
  usersPosts : List ((String × String) × GVal)
  hashIndex : List (String × String)
  souls : List (String × RawPost)
  appPostData : List (String × RawPost)
  deriving DecidableEq, Repr

/-- A store with nothing written yet. -/
def emptyStore : Store :=
  ⟨[], [], [], [], [], [], [], [], []⟩

/-- Ambient context of the hook: whether a gun instance exists, whether
the session is logged in, the authenticated public key exposed by
gun.user().is (if any), whether the getCurrentUserPub helper resolves it,
whether the SEA module is present, and whether a graph write throws. -/
structure AuthCtx where
  hasGun : Bool
  isLoggedIn : Bool
  identityPub : Option String
  helperResolves : Bool
  hasSEA : Bool
  putThrows : Bool
  deriving DecidableEq, Repr

/-- Modelled from the spec: getCurrentUserPub lives in utils/gunHelpers,
which is not among the given sources.  Per the spec, the IdentityProvider
exposes the current authenticated public key and a presence check, so the
helper returns that key when it resolves and null otherwise. -/
def getCurrentUserPub (ctx : AuthCtx) : Option String :=
  if ctx.helperResolves then ctx.identityPub else none

/-- The public key the repost code acts under: getCurrentUserPub if it
resolved, otherwise the gun.user().is fallback. -/
def resolvedPub (ctx : AuthCtx) : Option String :=
  match getCurrentUserPub ctx with
  | some p => some p
  | none => ctx.identityPub

/-- Structured result of the action-style operations. -/
structure ActionResult where
  success : Bool
  error : Option String
  deriving DecidableEq, Repr

/-- Result of replyToPost, which additionally carries an optional post id. -/
structure ReplyResult where
  success : Bool
  error : Option String
  postId : Option String
  deriving DecidableEq, Repr

/-- The two graph writes a like or unlike issues: the app-node entry and
the global-interactions mirror, both at key (postId, userPub). -/
def putLikeWrites (st : Store) (postId userPub : String) (v : GVal) : Store :=
  { st with
    appLikes := putKV st.appLikes (postId, userPub) v,
    intLikes := putKV st.intLikes (postId, userPub) v }

/-- likePost from usePostInteractions: guard on gun and login, resolve the
acting key (helper first, gun.user().is fallback), then put true at the
app likes entry and the interactions mirror; a throwing write is caught
and reported as a structured failure. -/
def likePost (ctx : AuthCtx) (st : Store) (postId : String) :
    ActionResult × Store :=
  if !(ctx.hasGun && ctx.isLoggedIn) then
    (⟨false, some "Not authenticated"⟩, st)
  else
    match getCurrentUserPub ctx with
    | none =>
      match ctx.identityPub with
      | some actualUserPub =>
        if ctx.putThrows then (⟨false, some "Failed to like post"⟩, st)
        else (⟨true, none⟩, putLikeWrites st postId actualUserPub (.gbool true))
      | none => (⟨false, some "User not authenticated"⟩, st)
    | some userPub =>
      if ctx.putThrows then (⟨false, some "Failed to like post"⟩, st)
      else (⟨true, none⟩, putLikeWrites st postId userPub (.gbool true))

/-- unlikePost from usePostInteractions: same guards as likePost, then put
null (a tombstone) at the app likes entry and the interactions mirror. -/
def unlikePost (ctx : AuthCtx) (st : Store) (postId : String) :
    ActionResult × Store :=
  if !(ctx.hasGun && ctx.isLoggedIn) then
    (⟨false, some "Not authenticated"⟩, st)
  else
    match getCurrentUserPub ctx with
    | none =>
      match ctx.identityPub with
      | some actualUserPub =>
        if ctx.putThrows then (⟨false, some "Failed to unlike post"⟩, st)
        else (⟨true, none⟩, putLikeWrites st postId actualUserPub .gnull)
      | none => (⟨false, some "User not authenticated"⟩, st)
    | some userPub =>
      if ctx.putThrows then (⟨false, some "Failed to unlike post"⟩, st)
      else (⟨true, none⟩, putLikeWrites st postId userPub .gnull)

/-- JavaScript or-with-now over an optional timestamp: a missing or zero
timestamp is falsy, so Date.now() is used instead. -/
def tsOrNow (ts : Option Nat) (now : Nat) : Nat :=
  match ts with
  | some t => if t = 0 then now else t
  | none => now

/-- The original-post lookup performed by repost: when SEA is present,
resolve the content-addressed table to a soul (a falsy or non-string soul
is ignored) and dereference it; if that yields nothing, fall back to the
app posts node. -/
def lookupOriginalPost (ctx : AuthCtx) (st : Store) (postId : String) :
    Option RawPost :=
  let viaHash : Option RawPost :=
    if ctx.hasSEA then
      match getKV st.hashIndex postId with
      | some soul => if soul = "" then none else getKV st.souls soul
      | none => none
    else none
  match viaHash with
  | some p => some p
  | none => getKV st.appPostData postId

/-- The four graph writes a repost issues: a timestamp record keyed
(postId, up) in the app repost record and the interactions mirror, and a
post-reference record marked reposted at (ip, postId) in the user-space
posts index and at (up, postId) in the public users posts index.  up is
the resolved acting key, ip the gun.user().is key that owns the
user-space write. -/
def repostWrites (st : Store) (postId up ip : String) (rts now : Nat) : Store :=
  { st with
    appReposts := putKV st.appReposts (postId, up) (.gts now),
    intReposts := putKV st.intReposts (postId, up) (.gts now),
    userSpacePosts := putKV st.userSpacePosts (ip, postId)
      (.gpostRef postId rts true),
    usersPosts := putKV st.usersPosts (up, postId)
      (.gpostRef postId rts true) }

/-- repost from usePostInteractions: guard on gun and login, require both
a resolved acting key and the gun.user().is key, look the original post
up (content-addressed first, app node fallback), fail with Post not found
when neither resolves, then issue the four writes; the mirrored reference
carries the original timestamp when truthy, Date.now() otherwise. -/
def repost (ctx : AuthCtx) (st : Store) (postId : String) (now : Nat) :
    ActionResult × Store :=
  if !(ctx.hasGun && ctx.isLoggedIn) then
    (⟨false, some "Not authenticated"⟩, st)
  else
    match resolvedPub ctx, ctx.identityPub with
    | some userPub, some idPub =>
      match lookupOriginalPost ctx st postId with
      | none => (⟨false, some "Post not found"⟩, st)
      | some originalPost =>
        if ctx.putThrows then (⟨false, some "Failed to repost"⟩, st)
        else
          (⟨true, none⟩,
            repostWrites st postId userPub idPub
              (tsOrNow originalPost.timestamp now) now)
    | _, _ => (⟨false, some "User not authenticated"⟩, st)

/-- The four tombstoning writes an unrepost issues, at exactly the keys
repostWrites wrote. -/
def unrepostWrites (st : Store) (postId up ip : String) : Store :=
  { st with
    appReposts := putKV st.appReposts (postId, up) .gnull,
    intReposts := putKV st.intReposts (postId, up) .gnull,
    userSpacePosts := putKV st.userSpacePosts (ip, postId) .gnull,
    usersPosts := putKV st.usersPosts (up, postId) .gnull }

/-- unrepost from usePostInteractions: same guards as repost (no lookup),
then put null at the app repost entry, the interactions mirror, the
user-space posts entry and the public users posts entry. -/
def unrepost (ctx : AuthCtx) (st : Store) (postId : String) :
    ActionResult × Store :=
  if !(ctx.hasGun && ctx.isLoggedIn) then
    (⟨false, some "Not authenticated"⟩, st)
  else
    match resolvedPub ctx, ctx.identityPub with
    | some userPub, some idPub =>
      if ctx.putThrows then (⟨false, some "Failed to unrepost"⟩, st)
      else (⟨true, none⟩, unrepostWrites st postId userPub idPub)
    | _, _ => (⟨false, some "User not authenticated"⟩, st)

/-- repost followed immediately by unrepost, observing only the final
store. -/
def repostRoundTrip (ctx : AuthCtx) (st : Store) (postId : String)
    (now : Nat) : Store :=
  (unrepost ctx (repost ctx st postId now).2 postId).2

/-- replyToPost from usePostInteractions: unconditionally returns a
structured failure telling the caller to use publishPost with a replyToId,
and issues no graph writes. -/
def replyToPost (postId content : String) (st : Store) :
    ReplyResult × Store :=
  (⟨false,
    some "Please use publishPost from useSocialProtocol with replyToId parameter for content-addressed replies",
    none⟩, st)

/-- The Post shape consumed by the UI components: interaction records are
carried as key-value lists (JavaScript records).  The optional author
profile enrichment is not modelled; no claim touches it. -/
structure Post where
  id : String
  author : String
  content : String
  timestamp : Nat
  likes : List (String × GVal)
  reposts : List (String × GVal)
  replyTo : Option String
  media : Option String
  deriving DecidableEq, Repr

/-- The post object the post-detail loader assembles before attaching the
likes and reposts it read; only the fields the counting claims consume
are kept concrete. -/
def detailPost (postId : String) (likes reposts : List (String × GVal)) :
    Post :=
  ⟨postId, "", "", 0, likes, reposts, none, none⟩

/-- The startsWith-underscore test applied to record keys throughout the
interaction code, phrased on the character list of the key so that it
evaluates by reduction: true exactly when the first character is an
underscore. -/
def underscoreKey (s : String) : Bool :=
  decide (s.data.head? = some '_')

/-- The post-detail likes filter: an entry is kept when its value is the
boolean true or a metadata-free object. -/
def likeIncluded : GVal → Bool
  | .gbool true => true
  | .gts _ => true
  | .gpostRef _ _ _ => true
  | _ => false

/-- The post-detail reposts filter: an entry is kept only when its value
is a metadata-free object (a bare boolean is not kept on this path). -/
def repostIncluded : GVal → Bool
  | .gts _ => true
  | .gpostRef _ _ _ => true
  | _ => false

/-- The likes record the post-detail loader builds from the app likes
node: underscore keys are dropped, included entries become true. -/
def readLikes (node : List (String × GVal)) : List (String × GVal) :=
  (node.filter
    (fun kv => !(underscoreKey kv.1) && likeIncluded kv.2)).map
    (fun kv => (kv.1, GVal.gbool true))

/-- The reposts record the post-detail loader builds from the app reposts
node: underscore keys are dropped, included entries become true. -/
def readReposts (node : List (String × GVal)) : List (String × GVal) :=
  (node.filter
    (fun kv => !(underscoreKey kv.1) && repostIncluded kv.2)).map
    (fun kv => (kv.1, GVal.gbool true))

/-- getLikeCount from usePostInteractions: the number of keys of the
likes record whose value is truthy and whose key is not
underscore-prefixed. -/
def getLikeCount (post : Post) : Nat :=
  (post.likes.filter
    (fun kv => truthy kv.2 && !(underscoreKey kv.1))).length

/-- getRepostCount from usePostInteractions: the number of keys of the
reposts record whose value is truthy and whose key is not
underscore-prefixed. -/
def getRepostCount (post : Post) : Nat :=
  (post.reposts.filter
    (fun kv => truthy kv.2 && !(underscoreKey kv.1))).length

/-- The children of the app likes node of one post: the entries of the
appLikes region whose postId component matches, re-keyed by userPub. -/
def postLikesNode (st : Store) (postId : String) : List (String × GVal) :=
  (st.appLikes.filter (fun kv => decide (kv.1.1 = postId))).map
    (fun kv => (kv.1.2, kv.2))

/-- n consecutive likePost calls under a fixed context, observing only
the store. -/
def likeN (ctx : AuthCtx) (postId : String) : Nat → Store → Store
  | 0, st => st
  | n + 1, st => likeN ctx postId n (likePost ctx st postId).2

/-- The truthiness test isReposted applies to the repost entry of the
current user: strictly true, or a metadata-free object. -/
def repostMarker : GVal → Bool
  | .gbool true => true
  | .gts _ => true
  | .gpostRef _ _ _ => true
  | _ => false

/-- isReposted from usePostInteractions: false without gun or login,
otherwise look the current key up (helper first, gun.user().is fallback)
and test the repost entry stored under it. -/
def isReposted (ctx : AuthCtx) (post : Post) : Bool :=
  if !(ctx.hasGun && ctx.isLoggedIn) then false
  else
    match getCurrentUserPub ctx with
    | some userPub =>
      match getKV post.reposts userPub with
      | some v => repostMarker v
      | none => false
    | none =>
      match ctx.identityPub with
      | some actualUserPub =>
        match getKV post.reposts actualUserPub with
        | some v => repostMarker v
        | none => false
      | none => false

/-- PostCard ownership test: the author equals the key useShogun exposes
for the current session (no key, not owned). -/
def isOwnPost (post : Post) (currentUserPub : Option String) : Bool :=
  match currentUserPub with
  | some u => post.author == u
  | none => false

/-- PostCard page test: the location pathname is the My Posts route. -/
def isMyPostsPage (pathname : String) : Bool :=
  pathname == "/my-posts"

/-- isRepostedPost from PostCard: on the My Posts page any post not owned
by the current user, elsewhere a post not owned and reposted per the
interaction record. -/
def isRepostedPost (ctx : AuthCtx) (pathname : String)
    (currentUserPub : Option String) (post : Post) : Bool :=
  if isMyPostsPage pathname then !(isOwnPost post currentUserPub)
  else !(isOwnPost post currentUserPub) && isReposted ctx post

/-- Stated from the claim, for comparison with isRepostedPost: a repost
badge exactly when the author differs from the current user and, off the
My Posts page, the interaction record additionally holds a non-tombstoned
repost entry for the current identity. -/
def repostFlagSpec (ctx : AuthCtx) (pathname : String)
    (currentUserPub : Option String) (post : Post) : Bool :=
  !(isOwnPost post currentUserPub) &&
    (isMyPostsPage pathname ||
      (ctx.hasGun && ctx.isLoggedIn &&
        (match ctx.identityPub with
         | some pub => truthyAt post.reposts pub
         | none => false)))

/-- The delivery channels feeding the post-detail lookup: the
content-addressed table subscription and the seven day-shard timeline
subscriptions. -/
inductive Chan where
  | hashPosts
  | timeline (dayOffset : Nat)
  deriving DecidableEq, Repr

/-- State of the post-detail effect: the found guard, the souls actually
dereferenced, the reported error and the loading flag. -/
structure DetailState where
  found : Bool
  loads : List String
  error : Option String
  loading : Bool
  deriving DecidableEq, Repr

/-- Post-detail state before any delivery: nothing found, nothing loaded,
no error, loading. -/
def detailInit : DetailState :=
  ⟨false, [], none, true⟩

/-- loadPostFromSoul from PostDetail: a falsy or non-string soul is
ignored, a redelivery after the found guard is set is ignored, otherwise
the guard is set and the soul is dereferenced (recorded in loads). -/
def loadPostFromSoul (s : DetailState) (postSoul : Option String) :
    DetailState :=
  match postSoul with
  | none => s
  | some soul =>
    if soul = "" || s.found then s
    else { s with found := true, loads := s.loads ++ [soul] }

/-- Whether a delivered value is a usable soul: a non-empty string. -/
def validSoul : Option String → Bool
  | some s => !(s = "")
  | none => false

/-- The events the post-detail effect reacts to: a delivery on some
channel, or the firing of the not-found timer. -/
inductive DetailEvent where
  | deliver (chan : Chan) (postSoul : Option String)
  | timeoutFire
  deriving DecidableEq, Repr

/-- One step of the post-detail effect: deliveries from every channel
funnel into loadPostFromSoul; the timer firing reports Post not found and
stops loading only when nothing was found by then. -/
def detailStep (s : DetailState) : DetailEvent → DetailState
  | .deliver _ postSoul => loadPostFromSoul s postSoul
  | .timeoutFire =>
    if s.found then s
    else { s with error := some "Post not found", loading := false }

/-- The not-found timer delay of the post-detail lookup, in
milliseconds. -/
def postDetailTimeoutMs : Nat := 8000

/-- Run the post-detail effect over a list of channel deliveries followed
by the timer firing. -/
def detailRun (ds : List (Chan × Option String)) : DetailState :=
  (ds.map (fun d => DetailEvent.deliver d.1 d.2) ++
    [DetailEvent.timeoutFire]).foldl detailStep detailInit

/-- The PostWithAuthor shape delivered to the bidirectional user-posts
subscription, restricted to the fields its conversion consumes. -/
structure PostWithAuthor where
  id : String
  authorPub : Option String
  author : Option String
  text : Option String
  content : Option String
  timestamp : Option Nat
  likes : List (String × GVal)
  reposts : List (String × GVal)
  replyTo : Option String
  media : Option String
  deriving DecidableEq, Repr

/-- JavaScript or-chain over optional strings: the first present
non-empty string, the empty string when none is. -/
def firstTruthyS : List (Option String) → String
  | [] => ""
  | none :: rest => firstTruthyS rest
  | some s :: rest => if s = "" then firstTruthyS rest else s

/-- The PostWithAuthor-to-Post conversion of the user-posts
subscription. -/
def toPost (pw : PostWithAuthor) (now : Nat) : Post :=
  ⟨pw.id,
    firstTruthyS [pw.authorPub, pw.author],
    firstTruthyS [pw.text, pw.content],
    tsOrNow pw.timestamp now,
    pw.likes, pw.reposts, pw.replyTo, pw.media⟩

/-- One delivery of the user-posts subscription: a missing object or a
falsy id is dropped, otherwise the converted post is set under its id in
postsMap, overwriting any earlier delivery with that id. -/
def userPostsStep (now : Nat) (m : List (String × Post))
    (pw : Option PostWithAuthor) : List (String × Post) :=
  match pw with
  | none => m
  | some p => if p.id = "" then m else putKV m p.id (toPost p now)

/-- The postsMap after a list of deliveries, starting empty. -/
def userPostsRun (now : Nat) (ds : List (Option PostWithAuthor)) :
    List (String × Post) :=
  ds.foldl (userPostsStep now) []

/-- Shape of a structured action result: success carries no error,
failure carries one. -/
def resultShaped (r : ActionResult) : Prop :=
  (r.success = true ∧ r.error = none) ∨
    (r.success = false ∧ r.error.isSome = true)

lemma filter_pred_idem {α : Type} (p : α → Bool) :
    ∀ l : List α, (l.filter p).filter p = l.filter p := by
  intro l
  induction l with
  | nil => rfl
  | cons a t ih => cases hp : p a <;> simp [List.filter_cons, hp, ih]

lemma filter_nil_of_filter_nil {α : Type} (p q : α → Bool) (l : List α)
    (h : l.filter p = []) : (l.filter q).filter p = [] := by
  rw [List.filter_filter]
  rw [List.filter_eq_nil_iff] at h ⊢
  intro a ha hc
  exact h a ha (Bool.and_elim_left hc)

lemma getKV_putKV_same {α β : Type} [DecidableEq α] (l : List (α × β))
    (k : α) (v : β) : getKV (putKV l k v) k = some v := by
  simp [putKV, getKV]

lemma getKV_filter_ne {α β : Type} [DecidableEq α] (k k2 : α) (h : k2 ≠ k) :
    ∀ l : List (α × β),
      getKV (l.filter fun p => decide (p.1 ≠ k)) k2 = getKV l k2 := by
  intro l
  induction l with
  | nil => rfl
  | cons a t ih =>
    obtain ⟨k1, v⟩ := a
    simp only [ne_eq, decide_not] at ih ⊢
    by_cases h1 : k1 = k
    · subst h1
      have hk : ¬ (k1 = k2) := fun hh => h hh.symm
      simp [List.filter_cons, getKV, hk, ih]
    · by_cases h2 : k1 = k2
      · subst h2
        simp [List.filter_cons, getKV, h1]
      · simp [List.filter_cons, getKV, h1, h2, ih]

lemma getKV_putKV_ne {α β : Type} [DecidableEq α] (l : List (α × β))
    (k k2 : α) (v : β) (h : k2 ≠ k) :
    getKV (putKV l k v) k2 = getKV l k2 := by
  have hk : ¬ (k = k2) := fun hh => h hh.symm
  simp only [putKV, getKV, if_neg hk]
  exact getKV_filter_ne k k2 h l

lemma putKV_putKV {α β : Type} [DecidableEq α] (l : List (α × β))
    (k : α) (v w : β) : putKV (putKV l k v) k w = putKV l k w := by
  unfold putKV
  simp only [List.filter_cons, ne_eq, decide_not]
  simp [filter_pred_idem]

lemma truthyAt_putKV_same {α : Type} [DecidableEq α]
    (l : List (α × GVal)) (k : α) (v : GVal) :
    truthyAt (putKV l k v) k = truthy v := by
  simp [truthyAt, getKV_putKV_same]

lemma truthyAt_putKV_ne {α : Type} [DecidableEq α]
    (l : List (α × GVal)) (k k2 : α) (v : GVal) (h : k2 ≠ k) :
    truthyAt (putKV l k v) k2 = truthyAt l k2 := by
  simp [truthyAt, getKV_putKV_ne l k k2 v h]

lemma resolvedPub_eq (ctx : AuthCtx) (pub : String)
    (h : ctx.identityPub = some pub) : resolvedPub ctx = some pub := by
  unfold resolvedPub getCurrentUserPub
  cases hr : ctx.helperResolves <;> simp [h]

lemma likePost_auth (ctx : AuthCtx) (st : Store) (postId pub : String)
    (hG : ctx.hasGun = true) (hL : ctx.isLoggedIn = true)
    (hP : ctx.identityPub = some pub) (hT : ctx.putThrows = false) :
    likePost ctx st postId =
      (⟨true, none⟩, putLikeWrites st postId pub (.gbool true)) := by
  unfold likePost getCurrentUserPub
  cases hr : ctx.helperResolves <;> simp [hG, hL, hP, hT]

lemma unlikePost_auth (ctx : AuthCtx) (st : Store) (postId pub : String)
    (hG : ctx.hasGun = true) (hL : ctx.isLoggedIn = true)
    (hP : ctx.identityPub = some pub) (hT : ctx.putThrows = false) :
    unlikePost ctx st postId =
      (⟨true, none⟩, putLikeWrites st postId pub .gnull) := by
  unfold unlikePost getCurrentUserPub
  cases hr : ctx.helperResolves <;> simp [hG, hL, hP, hT]

lemma repost_auth (ctx : AuthCtx) (st : Store) (postId pub : String)
    (now : Nat) (orig : RawPost)
    (hG : ctx.hasGun = true) (hL : ctx.isLoggedIn = true)
    (hP : ctx.identityPub = some pub) (hT : ctx.putThrows = false)
    (hF : lookupOriginalPost ctx st postId = some orig) :
    repost ctx st postId now =
      (⟨true, none⟩,
        repostWrites st postId pub pub (tsOrNow orig.timestamp now) now) := by
  unfold repost
  rw [resolvedPub_eq ctx pub hP]
  simp [hG, hL, hP, hT, hF]

lemma unrepost_auth (ctx : AuthCtx) (st : Store) (postId pub : String)
    (hG : ctx.hasGun = true) (hL : ctx.isLoggedIn = true)
    (hP : ctx.identityPub = some pub) (hT : ctx.putThrows = false) :
    unrepost ctx st postId =
      (⟨true, none⟩, unrepostWrites st postId pub pub) := by
  unfold unrepost
  rw [resolvedPub_eq ctx pub hP]
  simp [hG, hL, hP, hT]

lemma putLikeWrites_idem (st : Store) (postId pub : String) (v w : GVal) :
    putLikeWrites (putLikeWrites st postId pub v) postId pub w =
      putLikeWrites st postId pub w := by
  simp [putLikeWrites, putKV_putKV]

lemma likeN_succ (ctx : AuthCtx) (postId pub : String)
    (hG : ctx.hasGun = true) (hL : ctx.isLoggedIn = true)
    (hP : ctx.identityPub = some pub) (hT : ctx.putThrows = false)
    (n : Nat) : ∀ st : Store,
    likeN ctx postId (n + 1) st = putLikeWrites st postId pub (.gbool true) := by
  induction n with
  | zero =>
    intro st
    simp only [likeN, likePost_auth ctx st postId pub hG hL hP hT]
  | succ m ih =>
    intro st
    have step : likeN ctx postId (m + 2) st =
        likeN ctx postId (m + 1) (likePost ctx st postId).2 := rfl
    rw [step, ih, likePost_auth ctx st postId pub hG hL hP hT,
      putLikeWrites_idem]

lemma postLikesNode_putLike (st : Store) (postId pub : String) (v : GVal)
    (hFresh : postLikesNode st postId = []) :
    postLikesNode (putLikeWrites st postId pub v) postId = [(pub, v)] := by
  have hF2 : st.appLikes.filter (fun kv => decide (kv.1.1 = postId)) = [] := by
    have := hFresh
    unfold postLikesNode at this
    exact List.map_eq_nil_iff.mp this
  have hnil :
      ((st.appLikes.filter fun p => decide (p.1 ≠ (postId, pub))).filter
        fun kv => decide (kv.1.1 = postId)) = [] :=
    filter_nil_of_filter_nil _ _ st.appLikes hF2
  unfold postLikesNode putLikeWrites putKV
  simp only [ne_eq, decide_not] at hnil ⊢
  simp [List.filter_cons, hnil]

lemma count_one_entry (postId pub : String) (hU : underscoreKey pub = false) :
    getLikeCount
      (detailPost postId (readLikes [(pub, GVal.gbool true)]) []) = 1 := by
  simp [getLikeCount, detailPost, readLikes, likeIncluded, truthy, hU]

lemma count_tombstone (postId pub : String) :
    getLikeCount (detailPost postId (readLikes [(pub, GVal.gnull)]) []) = 0 := by
  simp [getLikeCount, detailPost, readLikes, likeIncluded]

lemma loadPostFromSoul_error (s : DetailState) (o : Option String) :
    (loadPostFromSoul s o).error = s.error := by
  cases o with
  | none => rfl
  | some soul =>
    by_cases hs : soul = "" <;> cases hf : s.found <;>
      simp [loadPostFromSoul, hs, hf]

lemma loadPostFromSoul_found (s : DetailState) (o : Option String) :
    (loadPostFromSoul s o).found = (s.found || validSoul o) := by
  unfold loadPostFromSoul validSoul
  cases o with
  | none => simp
  | some soul =>
    by_cases hs : soul = "" <;> cases hf : s.found <;> simp [hs, hf]

lemma loadPostFromSoul_of_found (s : DetailState) (o : Option String)
    (h : s.found = true) : loadPostFromSoul s o = s := by
  unfold loadPostFromSoul
  cases o with
  | none => rfl
  | some soul => simp [h]

lemma soulFold_of_found (ds : List (Chan × Option String)) :
    ∀ s : DetailState, s.found = true →
      ds.foldl (fun s d => loadPostFromSoul s d.2) s = s := by
  induction ds with
  | nil => intro s _; rfl
  | cons d t ih =>
    intro s h
    have hstep : loadPostFromSoul s d.2 = s := loadPostFromSoul_of_found s d.2 h
    simp only [List.foldl_cons, hstep]
    exact ih s h

lemma soulFold_loads_le (ds : List (Chan × Option String)) :
    ∀ s : DetailState, s.found = false →
      ((ds.foldl (fun s d => loadPostFromSoul s d.2) s).loads).length ≤
        s.loads.length + 1 := by
  induction ds with
  | nil => intro s _; simp
  | cons d t ih =>
    intro s h
    simp only [List.foldl_cons]
    cases ho : d.2 with
    | none =>
      have hid : loadPostFromSoul s none = s := rfl
      rw [hid]
      exact ih s h
    | some soul =>
      by_cases hs : soul = ""
      · have hid : loadPostFromSoul s (some soul) = s := by
          unfold loadPostFromSoul
          simp [hs]
        rw [hid]
        exact ih s h
      · have hstep : loadPostFromSoul s (some soul) =
            { s with found := true, loads := s.loads ++ [soul] } := by
          unfold loadPostFromSoul
          simp [hs, h]
        rw [hstep, soulFold_of_found t _ rfl]
        simp

lemma soulFold_error (ds : List (Chan × Option String)) :
    ∀ s : DetailState,
      ((ds.map (fun d => DetailEvent.deliver d.1 d.2)).foldl detailStep
        s).error = s.error := by
  induction ds with
  | nil => intro s; rfl
  | cons d t ih =>
    intro s
    simp only [List.map_cons, List.foldl_cons, detailStep]
    rw [ih, loadPostFromSoul_error]

lemma soulFold_found (ds : List (Chan × Option String)) :
    ∀ s : DetailState,
      ((ds.map (fun d => DetailEvent.deliver d.1 d.2)).foldl detailStep
        s).found = (s.found || ds.any (fun d => validSoul d.2)) := by
  induction ds with
  | nil => intro s; simp
  | cons d t ih =>
    intro s
    simp only [List.map_cons, List.foldl_cons, detailStep, List.any_cons]
    rw [ih, loadPostFromSoul_found, Bool.or_assoc]

lemma nodupKeys_putKV {α β : Type} [DecidableEq α] (m : List (α × β))
    (k : α) (v : β) (h : (m.map Prod.fst).Nodup) :
    ((putKV m k v).map Prod.fst).Nodup := by
  unfold putKV
  rw [List.map_cons, List.nodup_cons]
  constructor
  · intro hmem
    obtain ⟨p, hp, hfst⟩ := List.mem_map.mp hmem
    have := (List.mem_filter.mp hp).2
    simp only [ne_eq, decide_not, Bool.not_eq_eq_eq_not, Bool.not_true,
      decide_eq_false_iff_not] at this
    exact this hfst
  · exact List.Nodup.sublist
      ((List.filter_sublist m).map Prod.fst) h

lemma userPostsFold_nodup (now : Nat) (ds : List (Option PostWithAuthor)) :
    ∀ m : List (String × Post), (m.map Prod.fst).Nodup →
      ((ds.foldl (userPostsStep now) m).map Prod.fst).Nodup := by
  induction ds with
  | nil => intro m h; exact h
  | cons pw t ih =>
    intro m h
    simp only [List.foldl_cons]
    apply ih
    cases pw with
    | none => exact h
    | some p =>
      unfold userPostsStep
      by_cases hid : p.id = ""
      · simp [hid, h]
      · simp only [hid, if_false]
        exact nodupKeys_putKV m p.id (toPost p now) h

lemma repostMarker_eq_truthy (v : GVal) : repostMarker v = truthy v := by
  cases v with
  | gbool b => cases b <;> rfl
  | gnull => rfl
  | gts t => rfl
  | gpostRef i t r => rfl

lemma count_readLikes (node : List (String × GVal)) (postId : String)
    (reposts : List (String × GVal)) :
    getLikeCount (detailPost postId (readLikes node) reposts) =
      (node.filter
        (fun kv => !(underscoreKey kv.1) && likeIncluded kv.2)).length := by
  unfold getLikeCount detailPost readLikes
  induction node with
  | nil => rfl
  | cons kv t ih =>
    cases hp : (!(underscoreKey kv.1) && likeIncluded kv.2) with
    | false => simpa [List.filter_cons, hp] using ih
    | true =>
      have hkey : (!(underscoreKey kv.1)) = true :=
        (Bool.and_eq_true _ _).mp hp |>.1
      simp only [List.filter_cons, hp, List.map_cons, if_true]
      simp [truthy, hkey]
      simpa using ih

lemma count_readReposts (node : List (String × GVal)) (postId : String)
    (likes : List (String × GVal)) :
    getRepostCount (detailPost postId likes (readReposts node)) =
      (node.filter
        (fun kv => !(underscoreKey kv.1) && repostIncluded kv.2)).length := by
  unfold getRepostCount detailPost readReposts
  induction node with
  | nil => rfl
  | cons kv t ih =>
    cases hp : (!(underscoreKey kv.1) && repostIncluded kv.2) with
    | false => simpa [List.filter_cons, hp] using ih
    | true =>
      have hkey : (!(underscoreKey kv.1)) = true :=
        (Bool.and_eq_true _ _).mp hp |>.1
      simp only [List.filter_cons, hp, List.map_cons, if_true]
      simp [truthy, hkey]
      simpa using ih

lemma likePost_shaped (ctx : AuthCtx) (st : Store) (postId : String) :
    resultShaped (likePost ctx st postId).1 := by
  unfold likePost
  split
  · simp [resultShaped]
  · split
    · split
      · split <;> simp [resultShaped]
      · simp [resultShaped]
    · split <;> simp [resultShaped]

lemma unlikePost_shaped (ctx : AuthCtx) (st : Store) (postId : String) :
    resultShaped (unlikePost ctx st postId).1 := by
  unfold unlikePost
  split
  · simp [resultShaped]
  · split
    · split
      · split <;> simp [resultShaped]
      · simp [resultShaped]
    · split <;> simp [resultShaped]

lemma repost_shaped (ctx : AuthCtx) (st : Store) (postId : String)
    (now : Nat) : resultShaped (repost ctx st postId now).1 := by
  unfold repost
  split
  · simp [resultShaped]
  · split
    · split
      · simp [resultShaped]
      · split <;> simp [resultShaped]
    · simp [resultShaped]

lemma unrepost_shaped (ctx : AuthCtx) (st : Store) (postId : String) :
    resultShaped (unrepost ctx st postId).1 := by
  unfold unrepost
  split
  · simp [resultShaped]
  · split
    · split <;> simp [resultShaped]
    · simp [resultShaped]

/-- Claim C1: for an authenticated user whose key resolves, n consecutive
likePost calls on a post with no prior likes leave the like count read
from the app likes node at 1 — every call overwrites the single entry
keyed by the user key with true, never appending — and one unlikePost
immediately after tombstones that entry with null, which the count does
not count, leaving the like count at 0. -/
theorem C1_like_idempotence_unlike_zero
    (ctx : AuthCtx) (st : Store) (postId pub : String) (n : Nat)
    (hG : ctx.hasGun = true) (hL : ctx.isLoggedIn = true)
    (hP : ctx.identityPub = some pub) (hT : ctx.putThrows = false)
    (hU : underscoreKey pub = false)
    (hFresh : postLikesNode st postId = [])
    (hn : 1 ≤ n) :
    getLikeCount (detailPost postId
      (readLikes (postLikesNode (likeN ctx postId n st) postId)) []) = 1 ∧
    (likeN ctx postId n st).appLikes =
      putKV st.appLikes (postId, pub) (GVal.gbool true) ∧
    getKV (unlikePost ctx (likeN ctx postId n st) postId).2.appLikes
      (postId, pub) = some GVal.gnull ∧
    getLikeCount (detailPost postId
      (readLikes (postLikesNode
        (unlikePost ctx (likeN ctx postId n st) postId).2 postId)) []) = 0 := by
  obtain ⟨m, rfl⟩ : ∃ m, n = m + 1 := ⟨n - 1, by omega⟩
  have hlike : likeN ctx postId (m + 1) st =
      putLikeWrites st postId pub (.gbool true) :=
    likeN_succ ctx postId pub hG hL hP hT m st
  have hnode1 : postLikesNode (likeN ctx postId (m + 1) st) postId =
      [(pub, .gbool true)] := by
    rw [hlike]
    exact postLikesNode_putLike st postId pub _ hFresh
  have hst2 : (unlikePost ctx (likeN ctx postId (m + 1) st) postId).2 =
      putLikeWrites st postId pub .gnull := by
    rw [unlikePost_auth ctx _ postId pub hG hL hP hT, hlike, putLikeWrites_idem]
  have hnode2 : postLikesNode
      (unlikePost ctx (likeN ctx postId (m + 1) st) postId).2 postId =
      [(pub, .gnull)] := by
    rw [hst2]
    exact postLikesNode_putLike st postId pub _ hFresh
  refine ⟨?_, ?_, ?_, ?_⟩
  · rw [hnode1]
    exact count_one_entry postId pub hU
  · rw [hlike]
    rfl
  · rw [hst2]
    simp [putLikeWrites, getKV_putKV_same]
  · rw [hnode2]
    exact count_tombstone postId pub

/-- Witness for C1 at a concrete context, user, post and three like
calls. -/
theorem C1_like_idempotence_unlike_zero_witness :
    getLikeCount (detailPost "p1"
      (readLikes (postLikesNode
        (likeN ⟨true, true, some "alice", true, true, false⟩ "p1" 3
          emptyStore) "p1")) []) = 1 :=
  (C1_like_idempotence_unlike_zero ⟨true, true, some "alice", true, true,
    false⟩ emptyStore "p1" "alice" 3 rfl rfl rfl rfl (by decide) rfl
    (by decide)).1

/-- Claim C3: the like and repost counts are computed from the entries of
the interaction record read for the post — exactly the entries with a
truthy, non-underscore-keyed value — and a tombstoned (null) entry
contributes nothing to the record the reader builds; no stored counter is
consulted. -/
theorem C3_counts_from_entries
    (likesNode repostsNode : List (String × GVal)) (postId u : String) :
    getLikeCount (detailPost postId (readLikes likesNode)
        (readReposts repostsNode)) =
      (likesNode.filter
        (fun kv => !(underscoreKey kv.1) && likeIncluded kv.2)).length ∧
    getRepostCount (detailPost postId (readLikes likesNode)
        (readReposts repostsNode)) =
      (repostsNode.filter
        (fun kv => !(underscoreKey kv.1) && repostIncluded kv.2)).length ∧
    readLikes ((u, GVal.gnull) :: likesNode) = readLikes likesNode ∧
    readReposts ((u, GVal.gnull) :: repostsNode) = readReposts repostsNode := by
  refine ⟨count_readLikes likesNode postId _, count_readReposts repostsNode
    postId _, ?_, ?_⟩
  · simp [readLikes, List.filter_cons, likeIncluded]
  · simp [readReposts, List.filter_cons, repostIncluded]

/-- Claim C5: redelivery produces at most one processed result — the
post-detail lookup dereferences a delivered soul at most once no matter
how many times or on which channel it is redelivered, and the user-posts
subscription map keeps at most one entry per post id across all
deliveries. -/
theorem C5_redelivery_dedup (ds : List (Chan × Option String))
    (dsPW : List (Option PostWithAuthor)) (now : Nat) :
    ((ds.foldl (fun s d => loadPostFromSoul s d.2) detailInit).loads).length
      ≤ 1 ∧
    ((userPostsRun now dsPW).map Prod.fst).Nodup := by
  constructor
  · have h := soulFold_loads_le ds detailInit rfl
    simpa [detailInit] using h
  · exact userPostsFold_nodup now dsPW [] (by simp)

/-- Claim C6: the post-detail lookup reports Post not found only when the
8000 millisecond timer fires with nothing found — a valid soul delivered
before the timer fires prevents the not-found report, deliveries alone
never produce it, and when every delivery before the timer is invalid the
report is made and loading stops. -/
theorem C6_not_found_only_after_timeout (ds : List (Chan × Option String)) :
    postDetailTimeoutMs = 8000 ∧
    ((∃ d ∈ ds, validSoul d.2 = true) →
      (detailRun ds).error ≠ some "Post not found") ∧
    ((∀ d ∈ ds, validSoul d.2 = false) →
      (detailRun ds).error = some "Post not found" ∧
        (detailRun ds).loading = false) ∧
    ((ds.map (fun d => DetailEvent.deliver d.1 d.2)).foldl detailStep
      detailInit).error = none := by
  have hrun : detailRun ds =
      detailStep ((ds.map (fun d => DetailEvent.deliver d.1 d.2)).foldl
        detailStep detailInit) .timeoutFire := by
    unfold detailRun
    rw [List.foldl_append]
    rfl
  have herr : ((ds.map (fun d => DetailEvent.deliver d.1 d.2)).foldl
      detailStep detailInit).error = none := soulFold_error ds detailInit
  have hfound : ((ds.map (fun d => DetailEvent.deliver d.1 d.2)).foldl
      detailStep detailInit).found = ds.any (fun d => validSoul d.2) := by
    have h := soulFold_found ds detailInit
    simpa [detailInit] using h
  refine ⟨rfl, ?_, ?_, herr⟩
  · rintro ⟨d, hd, hv⟩
    have hany : ds.any (fun d => validSoul d.2) = true :=
      List.any_eq_true.mpr ⟨d, hd, hv⟩
    rw [hrun]
    simp [detailStep, hfound, hany, herr]
  · intro hall
    have hany : ds.any (fun d => validSoul d.2) = false := by
      cases hA : ds.any (fun d => validSoul d.2)
      · rfl
      · obtain ⟨d, hd, hv⟩ := List.any_eq_true.mp hA
        rw [hall d hd] at hv
        cases hv
    rw [hrun]
    simp [detailStep, hfound, hany]

/-- Witness for C6 at a single valid delivery on the content-addressed
channel. -/
theorem C6_not_found_only_after_timeout_witness :
    (detailRun [(Chan.hashPosts, some "s1")]).error ≠ some "Post not found" :=
  (C6_not_found_only_after_timeout [(Chan.hashPosts, some "s1")]).2.1
    (by decide)

/-- Claim C2: for an authenticated user whose repost entries are absent
or tombstoned before the call, repost followed by unrepost restores every
observable of the repost interaction record (app node and interactions
mirror) and of the reposting user post indices (user-space and public) to
its pre-repost state, leaves every other store region untouched, and
every path the repost wrote is written back (tombstoned) by the
unrepost. -/
theorem C2_repost_unrepost_round_trip
    (ctx : AuthCtx) (st : Store) (postId pub : String) (now : Nat)
    (orig : RawPost) (k : String × String)
    (hG : ctx.hasGun = true) (hL : ctx.isLoggedIn = true)
    (hP : ctx.identityPub = some pub) (hT : ctx.putThrows = false)
    (hF : lookupOriginalPost ctx st postId = some orig)
    (h1 : truthyAt st.appReposts (postId, pub) = false)
    (h2 : truthyAt st.intReposts (postId, pub) = false)
    (h3 : truthyAt st.userSpacePosts (pub, postId) = false)
    (h4 : truthyAt st.usersPosts (pub, postId) = false) :
    truthyAt (repostRoundTrip ctx st postId now).appReposts k =
      truthyAt st.appReposts k ∧
    truthyAt (repostRoundTrip ctx st postId now).intReposts k =
      truthyAt st.intReposts k ∧
    truthyAt (repostRoundTrip ctx st postId now).userSpacePosts k =
      truthyAt st.userSpacePosts k ∧
    truthyAt (repostRoundTrip ctx st postId now).usersPosts k =
      truthyAt st.usersPosts k ∧
    (repostRoundTrip ctx st postId now).appLikes = st.appLikes ∧
    (repostRoundTrip ctx st postId now).intLikes = st.intLikes ∧
    (repostRoundTrip ctx st postId now).hashIndex = st.hashIndex ∧
    (repostRoundTrip ctx st postId now).souls = st.souls ∧
    (repostRoundTrip ctx st postId now).appPostData = st.appPostData ∧
    (getKV (repost ctx st postId now).2.appReposts k ≠
        getKV st.appReposts k →
      getKV (repostRoundTrip ctx st postId now).appReposts k =
        some GVal.gnull) ∧
    (getKV (repost ctx st postId now).2.intReposts k ≠
        getKV st.intReposts k →
      getKV (repostRoundTrip ctx st postId now).intReposts k =
        some GVal.gnull) ∧
    (getKV (repost ctx st postId now).2.userSpacePosts k ≠
        getKV st.userSpacePosts k →
      getKV (repostRoundTrip ctx st postId now).userSpacePosts k =
        some GVal.gnull) ∧
    (getKV (repost ctx st postId now).2.usersPosts k ≠
        getKV st.usersPosts k →
      getKV (repostRoundTrip ctx st postId now).usersPosts k =
        some GVal.gnull) := by
  have hr : (repost ctx st postId now).2 =
      repostWrites st postId pub pub (tsOrNow orig.timestamp now) now := by
    rw [repost_auth ctx st postId pub now orig hG hL hP hT hF]
  have hrt : repostRoundTrip ctx st postId now =
      unrepostWrites (repostWrites st postId pub pub
        (tsOrNow orig.timestamp now) now) postId pub pub := by
    unfold repostRoundTrip
    rw [hr, unrepost_auth ctx _ postId pub hG hL hP hT]
  have hApp : (repostRoundTrip ctx st postId now).appReposts =
      putKV st.appReposts (postId, pub) .gnull := by
    rw [hrt]
    simp [unrepostWrites, repostWrites, putKV_putKV]
  have hInt : (repostRoundTrip ctx st postId now).intReposts =
      putKV st.intReposts (postId, pub) .gnull := by
    rw [hrt]
    simp [unrepostWrites, repostWrites, putKV_putKV]
  have hUS : (repostRoundTrip ctx st postId now).userSpacePosts =
      putKV st.userSpacePosts (pub, postId) .gnull := by
    rw [hrt]
    simp [unrepostWrites, repostWrites, putKV_putKV]
  have hU : (repostRoundTrip ctx st postId now).usersPosts =
      putKV st.usersPosts (pub, postId) .gnull := by
    rw [hrt]
    simp [unrepostWrites, repostWrites, putKV_putKV]
  refine ⟨?_, ?_, ?_, ?_, ?_, ?_, ?_, ?_, ?_, ?_, ?_, ?_, ?_⟩
  · rw [hApp]
    by_cases hk : k = (postId, pub)
    · subst hk
      rw [truthyAt_putKV_same, h1]
      rfl
    · rw [truthyAt_putKV_ne _ _ _ _ hk]
  · rw [hInt]
    by_cases hk : k = (postId, pub)
    · subst hk
      rw [truthyAt_putKV_same, h2]
      rfl
    · rw [truthyAt_putKV_ne _ _ _ _ hk]
  · rw [hUS]
    by_cases hk : k = (pub, postId)
    · subst hk
      rw [truthyAt_putKV_same, h3]
      rfl
    · rw [truthyAt_putKV_ne _ _ _ _ hk]
  · rw [hU]
    by_cases hk : k = (pub, postId)
    · subst hk
      rw [truthyAt_putKV_same, h4]
      rfl
    · rw [truthyAt_putKV_ne _ _ _ _ hk]
  · rw [hrt]
    rfl
  · rw [hrt]
    rfl
  · rw [hrt]
    rfl
  · rw [hrt]
    rfl
  · rw [hrt]
    rfl
  · intro hne
    by_cases hk : k = (postId, pub)
    · subst hk
      rw [hApp]
      exact getKV_putKV_same _ _ _
    · exfalso
      apply hne
      rw [hr]
      show getKV (putKV st.appReposts (postId, pub) (.gts now)) k =
        getKV st.appReposts k
      exact getKV_putKV_ne _ _ _ _ hk
  · intro hne
    by_cases hk : k = (postId, pub)
    · subst hk
      rw [hInt]
      exact getKV_putKV_same _ _ _
    · exfalso
      apply hne
      rw [hr]
      show getKV (putKV st.intReposts (postId, pub) (.gts now)) k =
        getKV st.intReposts k
      exact getKV_putKV_ne _ _ _ _ hk
  · intro hne
    by_cases hk : k = (pub, postId)
    · subst hk
      rw [hUS]
      exact getKV_putKV_same _ _ _
    · exfalso
      apply hne
      rw [hr]
      show getKV (putKV st.userSpacePosts (pub, postId)
        (.gpostRef postId (tsOrNow orig.timestamp now) true)) k =
        getKV st.userSpacePosts k
      exact getKV_putKV_ne _ _ _ _ hk
  · intro hne
    by_cases hk : k = (pub, postId)
    · subst hk
      rw [hU]
      exact getKV_putKV_same _ _ _
    · exfalso
      apply hne
      rw [hr]
      show getKV (putKV st.usersPosts (pub, postId)
        (.gpostRef postId (tsOrNow orig.timestamp now) true)) k =
        getKV st.usersPosts k
      exact getKV_putKV_ne _ _ _ _ hk

/-- Witness for C2 at a concrete context, store holding the original
post, user and key. -/
theorem C2_repost_unrepost_round_trip_witness :
    truthyAt (repostRoundTrip ⟨true, true, some "alice", true, true, false⟩
      { emptyStore with appPostData := [("p1", ⟨some 5⟩)] } "p1" 77).appReposts
      ("p1", "alice") =
    truthyAt ({ emptyStore with
      appPostData := [("p1", ⟨some 5⟩)] } : Store).appReposts ("p1", "alice") :=
  (C2_repost_unrepost_round_trip ⟨true, true, some "alice", true, true,
    false⟩ { emptyStore with appPostData := [("p1", ⟨some 5⟩)] } "p1"
    "alice" 77 ⟨some 5⟩ ("p1", "alice") rfl rfl rfl rfl rfl rfl rfl rfl
    rfl).1

/-- Claim C4: for an authenticated user and a resolvable post, a
successful repost stores a timestamp record keyed by the user key in the
repost record of the post (app node and interactions mirror) and a
reference record carrying the post id, the mirrored timestamp and the
reposted flag into the reposting user own post indices; a successful
unrepost writes null over all four entries. -/
theorem C4_repost_writes_unrepost_nulls
    (ctx : AuthCtx) (st : Store) (postId pub : String) (now : Nat)
    (orig : RawPost)
    (hG : ctx.hasGun = true) (hL : ctx.isLoggedIn = true)
    (hP : ctx.identityPub = some pub) (hT : ctx.putThrows = false)
    (hF : lookupOriginalPost ctx st postId = some orig) :
    (repost ctx st postId now).1 = ⟨true, none⟩ ∧
    getKV (repost ctx st postId now).2.appReposts (postId, pub) =
      some (GVal.gts now) ∧
    getKV (repost ctx st postId now).2.intReposts (postId, pub) =
      some (GVal.gts now) ∧
    getKV (repost ctx st postId now).2.usersPosts (pub, postId) =
      some (GVal.gpostRef postId (tsOrNow orig.timestamp now) true) ∧
    getKV (repost ctx st postId now).2.userSpacePosts (pub, postId) =
      some (GVal.gpostRef postId (tsOrNow orig.timestamp now) true) ∧
    (unrepost ctx st postId).1 = ⟨true, none⟩ ∧
    getKV (unrepost ctx st postId).2.appReposts (postId, pub) =
      some GVal.gnull ∧
    getKV (unrepost ctx st postId).2.intReposts (postId, pub) =
      some GVal.gnull ∧
    getKV (unrepost ctx st postId).2.usersPosts (pub, postId) =
      some GVal.gnull ∧
    getKV (unrepost ctx st postId).2.userSpacePosts (pub, postId) =
      some GVal.gnull := by
  have hr := repost_auth ctx st postId pub now orig hG hL hP hT hF
  have hu := unrepost_auth ctx st postId pub hG hL hP hT
  rw [hr, hu]
  refine ⟨rfl, ?_, ?_, ?_, ?_, rfl, ?_, ?_, ?_, ?_⟩ <;>
    simp [repostWrites, unrepostWrites, getKV_putKV_same]

/-- Witness for C4 at a concrete context, store holding the original
post, and user. -/
theorem C4_repost_writes_unrepost_nulls_witness :
    getKV (repost ⟨true, true, some "alice", true, true, false⟩
      { emptyStore with appPostData := [("p1", ⟨some 5⟩)] } "p1"
      77).2.appReposts ("p1", "alice") = some (GVal.gts 77) :=
  (C4_repost_writes_unrepost_nulls ⟨true, true, some "alice", true, true,
    false⟩ { emptyStore with appPostData := [("p1", ⟨some 5⟩)] } "p1"
    "alice" 77 ⟨some 5⟩ rfl rfl rfl rfl rfl).2.1

/-- Claim C7: each interaction operation fails with a structured error
and leaves the store untouched when gun or the login flag is missing, or
when no public key is resolvable; and when authenticated every write it
issues is keyed by the public key of the current identity. -/
theorem C7_auth_guards (ctx : AuthCtx) (st : Store) (postId : String)
    (now : Nat) (pub : String) (orig : RawPost) :
    ((ctx.hasGun = false ∨ ctx.isLoggedIn = false) →
      likePost ctx st postId = (⟨false, some "Not authenticated"⟩, st) ∧
      unlikePost ctx st postId = (⟨false, some "Not authenticated"⟩, st) ∧
      repost ctx st postId now = (⟨false, some "Not authenticated"⟩, st) ∧
      unrepost ctx st postId = (⟨false, some "Not authenticated"⟩, st)) ∧
    (ctx.identityPub = none → ctx.hasGun = true → ctx.isLoggedIn = true →
      likePost ctx st postId = (⟨false, some "User not authenticated"⟩, st) ∧
      unlikePost ctx st postId =
        (⟨false, some "User not authenticated"⟩, st) ∧
      repost ctx st postId now =
        (⟨false, some "User not authenticated"⟩, st) ∧
      unrepost ctx st postId =
        (⟨false, some "User not authenticated"⟩, st)) ∧
    (ctx.identityPub = some pub → ctx.hasGun = true →
      ctx.isLoggedIn = true → ctx.putThrows = false →
      (likePost ctx st postId).2 = putLikeWrites st postId pub (.gbool true) ∧
      (unlikePost ctx st postId).2 = putLikeWrites st postId pub .gnull ∧
      (lookupOriginalPost ctx st postId = some orig →
        (repost ctx st postId now).2 =
          repostWrites st postId pub pub (tsOrNow orig.timestamp now) now) ∧
      (unrepost ctx st postId).2 = unrepostWrites st postId pub pub) := by
  refine ⟨?_, ?_, ?_⟩
  · rintro (h | h) <;>
      exact ⟨by simp [likePost, h], by simp [unlikePost, h],
        by simp [repost, h], by simp [unrepost, h]⟩
  · intro hip hg hl
    cases hh : ctx.helperResolves <;>
      exact ⟨by simp [likePost, getCurrentUserPub, hip, hg, hl, hh],
        by simp [unlikePost, getCurrentUserPub, hip, hg, hl, hh],
        by simp [repost, resolvedPub, getCurrentUserPub, hip, hg, hl, hh],
        by simp [unrepost, resolvedPub, getCurrentUserPub, hip, hg, hl, hh]⟩
  · intro hip hg hl ht
    refine ⟨?_, ?_, ?_, ?_⟩
    · rw [likePost_auth ctx st postId pub hg hl hip ht]
    · rw [unlikePost_auth ctx st postId pub hg hl hip ht]
    · intro hF
      rw [repost_auth ctx st postId pub now orig hg hl hip ht hF]
    · rw [unrepost_auth ctx st postId pub hg hl hip ht]

/-- Witness for C7 at a concrete unauthenticated context. -/
theorem C7_auth_guards_witness :
    likePost ⟨false, false, none, false, false, false⟩ emptyStore "p1" =
      (⟨false, some "Not authenticated"⟩, emptyStore) :=
  ((C7_auth_guards ⟨false, false, none, false, false, false⟩ emptyStore
    "p1" 0 "x" ⟨none⟩).1 (Or.inl rfl)).1

/-- Claim C8: on every input, each of the four action-style interaction
operations returns a structured result — success with no error, or
failure carrying an error — and, being total functions, they terminate
normally on every execution path. -/
theorem C8_structured_results (ctx : AuthCtx) (st : Store)
    (postId : String) (now : Nat) :
    resultShaped (likePost ctx st postId).1 ∧
    resultShaped (unlikePost ctx st postId).1 ∧
    resultShaped (repost ctx st postId now).1 ∧
    resultShaped (unrepost ctx st postId).1 :=
  ⟨likePost_shaped ctx st postId, unlikePost_shaped ctx st postId,
    repost_shaped ctx st postId now, unrepost_shaped ctx st postId⟩

/-- Claim C9: the repost badge is derived from page context alone on the
My Posts page — any post whose author differs from the current user —
and elsewhere from the author test conjoined with a non-tombstoned repost
entry for the current identity in the interaction record, as the
comparison definition written from the claim states. -/
theorem C9_repost_badge_two_paths (ctx : AuthCtx) (pathname : String)
    (currentUserPub : Option String) (post : Post) :
    isRepostedPost ctx pathname currentUserPub post =
      repostFlagSpec ctx pathname currentUserPub post := by
  have hrep : isReposted ctx post =
      (ctx.hasGun && ctx.isLoggedIn &&
        (match ctx.identityPub with
         | some pub => truthyAt post.reposts pub
         | none => false)) := by
    cases hip : ctx.identityPub with
    | none =>
      unfold isReposted getCurrentUserPub
      cases hg : ctx.hasGun <;> cases hl : ctx.isLoggedIn <;>
        cases hh : ctx.helperResolves <;> simp [hg, hl, hh, hip]
    | some pub =>
      unfold isReposted getCurrentUserPub truthyAt
      cases hg : ctx.hasGun <;> cases hl : ctx.isLoggedIn <;>
        cases hh : ctx.helperResolves <;>
          cases hk : getKV post.reposts pub <;>
            simp [hg, hl, hh, hip, hk, repostMarker_eq_truthy]
  unfold isRepostedPost repostFlagSpec
  rw [hrep]
  cases hm : isMyPostsPage pathname <;> simp [hm]

/-- Claim C10: replyToPost returns, on every input, a structured failure
whose message directs the caller to publishPost with a replyToId, and
leaves the store untouched: creating a reply through the hook is
impossible. -/
theorem C10_reply_always_fails (postId content : String) (st : Store) :
    replyToPost postId content st =
      (⟨false,
        some "Please use publishPost from useSocialProtocol with replyToId parameter for content-addressed replies",
        none⟩, st) ∧
    (replyToPost postId content st).2 = st :=
  ⟨rfl, rfl⟩

end Mistodon
